import Mathlib

/-!
Verification of the folder-watching script
(`src/scripts/sample-script-watch-folder.py`).

The script is embedded shallowly:

* Filesystem snapshots are explicit data (`List String` for existence
  checks, `List (String × Int)` for `os.stat`, pairing each existing path
  with the integer truncation of its creation timestamp).
* Log calls, `time.sleep`, `observer.stop()` and `observer.join()` become
  explicit actions (`Act`) accumulated in a trace.
* The mutable nonlocal `folder_path` and the observer's stop flag become a
  `SessionState` threaded through the step functions.
* The heartbeat loop of `monitor_folder`, the poll loop of
  `wait_for_folder` and the supervisor loop of `main` are driven by finite
  traces of externally supplied inputs (filesystem snapshots, delivered
  watchdog events, environment reads); an exhausted trace means the loop
  is still running, not that it returned.
* Python exceptions (`ValueError` from `int(...)` and from a negative
  `time.sleep`, `FileNotFoundError` from `os.stat`) are `Except` values;
  `try/except/finally` is explicit control flow on them.
-/

/-- Log severities used by the script (`logging.INFO/WARNING/CRITICAL`). -/
inductive LogLevel
  | info
  | warning
  | critical
  deriving DecidableEq, Repr

/-- Python exceptions that the embedded fragments can raise. -/
inductive PyExc
  | valueError (msg : String)
  | fileNotFound (msg : String)
  deriving DecidableEq, Repr

/-- Message text carried by a `PyExc` (the `{e}` of the f-strings). -/
def excText : PyExc → String
  | .valueError m => m
  | .fileNotFound m => m

/-- The distinct log messages emitted by the script, one constructor per
call site of `log_message`, each carrying the interpolated data of its
f-string.  `msgText` renders the exact message string. -/
inductive Msg
  | heartbeat (folderPath folderId : String)
  | renamed (srcPath destPath : String)
  | monitorError (folderPath : String) (e : PyExc)
  | terminated (folderPath folderId : String)
  | waiting (folderPath : String)
  | fileCreated (srcPath : String)
  | fileDeleted (srcPath : String)
  | folderCreated (folderPath folderId : String) (tid : Nat)
  | resolveFailed (folderPath : String)
  deriving DecidableEq, Repr

/-- Renders each log message exactly as the script's f-strings build it. -/
def msgText : Msg → String
  | .heartbeat fp fid => "Monitoring folder " ++ fp ++ " (ID: " ++ fid ++ ")"
  | .renamed src dest => "Folder renamed from " ++ src ++ " to " ++ dest
  | .monitorError fp e => "Error monitoring folder " ++ fp ++ ": " ++ excText e
  | .terminated fp fid => "Folder " ++ fp ++ " (ID: " ++ fid ++ ") monitoring terminated."
  | .waiting fp => "Waiting for folder " ++ fp ++ " to be created..."
  | .fileCreated p => "File created: " ++ p
  | .fileDeleted p => "File deleted: " ++ p
  | .folderCreated fp fid tid =>
      "Folder " ++ fp ++ " of ID " ++ fid ++ " is created with Thread ID " ++ toString tid
  | .resolveFailed fp => "Failed to get folder ID for " ++ fp ++ "."

/-- A string `msg` mentions `s` when `s` occurs in it as a contiguous
substring. -/
def mentions (msg s : String) : Prop := ∃ a b, msg = a ++ s ++ b

/-- Observable actions of the script: a log line, a `time.sleep`, and the
observer's `stop()`/`join()` calls. -/
inductive Act
  | log (lvl : LogLevel) (m : Msg)
  | sleep (secs : Int)
  | obsStop
  | obsJoin
  deriving DecidableEq, Repr

/-- Whether two characters lists start the same way (`needle` is a leading
segment of `hay`). -/
def startsL : List Char → List Char → Bool
  | [], _ => true
  | _ :: _, [] => false
  | c :: cs, d :: ds => c = d && startsL cs ds

/-- Whether `needle` occurs contiguously inside `hay`. -/
def hasSubL (needle : List Char) : List Char → Bool
  | [] => needle.isEmpty
  | c :: cs => startsL needle (c :: cs) || hasSubL needle cs

/-- Python's `needle in hay` on strings: contiguous substring test. -/
def substrIn (needle hay : String) : Bool := hasSubL needle.toList hay.toList

/-- Python's `os.path.basename`: everything after the last `/`. -/
def basename (p : String) : String :=
  ⟨p.toList.foldl (fun acc c => if c = '/' then [] else acc ++ [c]) []⟩

/-- The `DEFAULT_PERIODICITY = 5` constant of the script. -/
def DEFAULT_PERIODICITY : Int := 5

/-- Value of a run of decimal digits, or `none` when the run is empty or
holds a non-digit. -/
def digitsVal (cs : List Char) : Option Nat :=
  if cs = [] then none
  else if cs.all (·.isDigit) then
    some (cs.foldl (fun acc c => 10 * acc + (c.toNat - '0'.toNat)) 0)
  else none

/-- Python's `int(s)` on a string: optional surrounding spaces, optional
sign, a nonempty run of digits; `none` models the `ValueError` raise. -/
def pyInt? (s : String) : Option Int :=
  let cs := s.toList.dropWhile (· = ' ')
  let cs := (cs.reverse.dropWhile (· = ' ')).reverse
  match cs with
  | '+' :: rest => (digitsVal rest).map Int.ofNat
  | '-' :: rest => (digitsVal rest).map (fun n => -(Int.ofNat n))
  | _ => (digitsVal cs).map Int.ofNat

/-- Evaluation of `int(os.getenv('PERIODICITY', DEFAULT_PERIODICITY))` for
one read of the environment: an unset variable yields the integer default,
a set one is parsed by `int`, raising `ValueError` on failure. -/
def periodVal : Option String → Except PyExc Int
  | none => .ok DEFAULT_PERIODICITY
  | some s =>
    match pyInt? s with
    | some v => .ok v
    | none => .error (.valueError ("invalid literal for int() with base 10: '" ++ s ++ "'"))

/-- Ambient process context: `os.path.abspath` (an external stdlib
function, kept abstract) and the thread id reported in the start log. -/
structure Ctx where
  abspath : String → String
  tid : Nat

/-- Mutable state of one `monitor_folder` session: the nonlocal
`folder_path` variable and whether `observer.stop()` has been called. -/
structure SessionState where
  folder_path : String
  observerRunning : Bool
  deriving DecidableEq, Repr

/-- A watchdog move event (`event.src_path`, `event.dest_path`). -/
structure MoveEvent where
  src_path : String
  dest_path : String
  deriving DecidableEq, Repr

/-- A watchdog filesystem event delivered to the handler. -/
inductive FEvent
  | created (src : String)
  | deleted (src : String)
  | moved (src dest : String)
  deriving DecidableEq, Repr

/-- `FolderEventHandler.on_created`: log an informational line only when
the base name of the created path contains `"content-banned"`. -/
def on_created (src : String) : List (LogLevel × Msg) :=
  if substrIn "content-banned" (basename src) then [(.info, .fileCreated src)] else []

/-- `FolderEventHandler.on_deleted`: same filter as `on_created`. -/
def on_deleted (src : String) : List (LogLevel × Msg) :=
  if substrIn "content-banned" (basename src) then [(.info, .fileDeleted src)] else []

/-- `FolderEventHandler.on_moved`: when the absolute path of the tracked
`folder_path` equals that of the event source, log a warning, rebind the
nonlocal `folder_path` to the destination and call `observer.stop()`;
otherwise do nothing.  No name filter is applied to moves. -/
def on_moved (ctx : Ctx) (st : SessionState) (ev : MoveEvent) : SessionState × List (LogLevel × Msg) :=
  if ctx.abspath st.folder_path = ctx.abspath ev.src_path then
    (⟨ev.dest_path, false⟩, [(.warning, .renamed ev.src_path ev.dest_path)])
  else (st, [])

/-- Dispatch of one watchdog event to the matching handler method. -/
def dispatch (ctx : Ctx) (st : SessionState) : FEvent → SessionState × List (LogLevel × Msg)
  | .created s => (st, on_created s)
  | .deleted s => (st, on_deleted s)
  | .moved s d => on_moved ctx st ⟨s, d⟩

/-- Delivery of a batch of watchdog events to the handler.  Events are
delivered only while the observer is running: once `observer.stop()` has
been called (possibly by `on_moved` itself) no further event is
dispatched. -/
def deliverEvents (ctx : Ctx) : SessionState → List FEvent → SessionState × List Act
  | st, [] => (st, [])
  | st, ev :: rest =>
    if st.observerRunning then
      let r := dispatch ctx st ev
      let r' := deliverEvents ctx r.1 rest
      (r'.1, r.2.map (fun lm => Act.log lm.1 lm.2) ++ r'.2)
    else (st, [])

/-- External inputs seen by one iteration of the heartbeat loop: the
watchdog events delivered since the previous check, the set of paths
existing on disk when `os.path.exists` runs, and the value of the
`PERIODICITY` environment variable when `os.getenv` runs (`none` =
unset). -/
structure Tick where
  events : List FEvent
  fs : List String
  periodicity : Option String
  deriving DecidableEq, Repr

/-- How the heartbeat `while` loop ended: the existence check failed
(normal exit), the body raised a Python exception, or the input trace was
exhausted with the loop still running. -/
inductive LoopExit
  | normalExit
  | raised (e : PyExc)
  | running
  deriving DecidableEq, Repr

/-- Result of running (a portion of) a monitoring session: final session
state, the actions performed, and how the loop ended. -/
structure RunOut where
  st : SessionState
  acts : List Act
  exit : LoopExit
  deriving DecidableEq, Repr

/-- The `while os.path.exists(folder_path):` heartbeat loop of
`monitor_folder`, driven by one `Tick` of external input per iteration.
Each iteration: deliver pending events (which may rebind `folder_path`
and stop the observer), check existence of the *current* `folder_path`,
log the heartbeat, re-read `PERIODICITY` from the environment, and sleep
— `int(...)` failure or a negative sleep raises out of the loop body. -/
def loopRun (ctx : Ctx) (folder_id : String) : SessionState → List Tick → RunOut
  | st, [] => ⟨st, [], .running⟩
  | st, t :: rest =>
    let d := deliverEvents ctx st t.events
    if d.1.folder_path ∈ t.fs then
      let hb := Act.log .info (.heartbeat d.1.folder_path folder_id)
      match periodVal t.periodicity with
      | .error e => ⟨d.1, d.2 ++ [hb], .raised e⟩
      | .ok v =>
        if v < 0 then
          ⟨d.1, d.2 ++ [hb], .raised (.valueError "sleep length must be non-negative")⟩
        else
          let r := loopRun ctx folder_id d.1 rest
          ⟨r.st, d.2 ++ hb :: Act.sleep v :: r.acts, r.exit⟩
    else ⟨d.1, d.2, .normalExit⟩

/-- The `finally:` block of `monitor_folder`: `observer.stop()`,
`observer.join()`, then the critical termination log. -/
def finallyActs (fp fid : String) : List Act :=
  [.obsStop, .obsJoin, .log .critical (.terminated fp fid)]

/-- `monitor_folder(folder_path, folder_id)`: start the observer, run the
heartbeat loop under `try`, convert a raised exception into the critical
`except` log, and run the `finally` block on both completed exit paths.
When the trace ends with the loop still running, the `except`/`finally`
code has not executed yet and the partial trace is returned as is. -/
def monitor_folder (ctx : Ctx) (folder_path folder_id : String) (ticks : List Tick) : RunOut :=
  let r := loopRun ctx folder_id ⟨folder_path, true⟩ ticks
  match r.exit with
  | .running => r
  | .normalExit =>
    ⟨⟨r.st.folder_path, false⟩, r.acts ++ finallyActs r.st.folder_path folder_id, .normalExit⟩
  | .raised e =>
    ⟨⟨r.st.folder_path, false⟩,
      r.acts ++ Act.log .critical (.monitorError r.st.folder_path e) :: finallyActs r.st.folder_path folder_id,
      .raised e⟩

/-- The poll loop of `wait_for_folder`, driven by the sequence of results
of the successive `os.path.exists` checks.  Returns the actions performed
and whether the loop returned within the trace (`false` = still
waiting). -/
def waitRun : List Bool → List Act × Bool
  | [] => ([], false)
  | b :: rest =>
    if b then ([], true)
    else
      let r := waitRun rest
      (Act.sleep 1 :: r.1, r.2)

/-- `wait_for_folder(folder_path)`: one informational log line, then poll
existence once per second until the path exists. -/
def wait_for_folder (folder_path : String) (checks : List Bool) : List Act × Bool :=
  let r := waitRun checks
  (Act.log .info (.waiting folder_path) :: r.1, r.2)

/-- `os.stat(folder_path)` restricted to the field the script reads: looks
the path up in the snapshot and yields the integer truncation of its
creation timestamp (`int(st_ctime)`), or raises `FileNotFoundError`. -/
def os_stat (fs : List (String × Int)) (p : String) : Except PyExc Int :=
  match fs.find? (fun e => e.1 == p) with
  | some e => .ok e.2
  | none => .error (.fileNotFound p)

/-- Whether the stat snapshot knows the path (the path exists at metadata
read time). -/
def statKnows (fs : List (String × Int)) (p : String) : Bool :=
  (fs.find? (fun e => e.1 == p)).isSome

/-- `get_folder_id(folder_path)`: format the truncated creation time as a
string, catching `FileNotFoundError` into the empty string. -/
def get_folder_id (fs : List (String × Int)) (p : String) : String :=
  match os_stat fs p with
  | .ok c => toString c
  | .error _ => ""

/-- A `NotFound` error value, as named by the spec's
`resolveIdentity(path) -> Result<string, NotFound>` contract. -/
inductive NotFound
  | pathNotFound
  deriving DecidableEq, Repr

/-- Modelled from the spec: `resolveIdentity(path) -> Result<string,
NotFound>` — identity resolution with a *distinguished* error channel for
the vanished-path race, as the spec's contract demands.  The source's
`get_folder_id` has no such channel; this definition exists only to be
compared with it. -/
def resolveIdentitySpec (fs : List (String × Int)) (p : String) : Except NotFound String :=
  match os_stat fs p with
  | .ok c => .ok (toString c)
  | .error _ => .error .pathNotFound

/-- External inputs seen by one iteration of the supervisor loop in
`main`: the existence-poll results consumed by `wait_for_folder`, the
stat snapshot in force when `get_folder_id` runs, and the tick trace of
the monitoring session started in this iteration (if one starts). -/
structure SupTick where
  waitChecks : List Bool
  statFS : List (String × Int)
  sessionTicks : List Tick
  deriving DecidableEq, Repr

/-- Record of one supervisor-loop iteration: the path whose existence was
awaited, the path identity resolution ran on (`none` when the iteration
was still blocked in the wait), and the session's final tracked
`folder_path` (`none` when no session ran to completion). -/
structure MainRec where
  waited : String
  resolved : Option String
  sessionFinal : Option String
  deriving DecidableEq, Repr

/-- The `while True:` supervisor loop of `main`, driven by one `SupTick`
per iteration.  `folder_path` here is the value resolved once at process
start from `MONITORED_FOLDER`; `monitor_folder` receives it by value, so
the session's nonlocal rebinding (returned in `RunOut.st`) never flows
back.  A falsy (empty) `get_folder_id` result takes the critical-log
branch and the loop restarts at once. -/
def mainRun (ctx : Ctx) (folder_path : String) : List SupTick → List Act × List MainRec
  | [] => ([], [])
  | ti :: rest =>
    let w := wait_for_folder folder_path ti.waitChecks
    if w.2 then
      let fid := get_folder_id ti.statFS folder_path
      if fid = "" then
        let r := mainRun ctx folder_path rest
        (w.1 ++ Act.log .critical (.resolveFailed folder_path) :: r.1,
         ⟨folder_path, some folder_path, none⟩ :: r.2)
      else
        let m := monitor_folder ctx folder_path fid ti.sessionTicks
        match m.exit with
        | .running =>
          (w.1 ++ Act.log .info (.folderCreated folder_path fid ctx.tid) :: m.acts,
           [⟨folder_path, some folder_path, none⟩])
        | _ =>
          let r := mainRun ctx folder_path rest
          (w.1 ++ Act.log .info (.folderCreated folder_path fid ctx.tid) :: m.acts ++ r.1,
           ⟨folder_path, some folder_path, some m.st.folder_path⟩ :: r.2)
    else (w.1, [⟨folder_path, none, none⟩])

/-- `folder_path = os.getenv('MONITORED_FOLDER', './watched_folder')`,
resolved once at process start. -/
def mainPath (env : Option String) : String := env.getD "./watched_folder"

/-- Modelled from the spec: the Event Watcher handle of the external
watchdog library (not part of src/), reduced to the one observable the
spec's `stop` contract speaks about — whether the notification subsystem
is still running. -/
structure ObserverH where
  running : Bool
  deriving DecidableEq, Repr

/-- Modelled from the spec: `stop(Handle) -> ()` of the Event Watcher —
total (never raises) and merely clears the running flag. -/
def observerStop (_o : ObserverH) : ObserverH := ⟨false⟩

/-- Whether an action is the session-termination log line. -/
def isTermAct : Act → Bool
  | .log _ m =>
    match m with
    | .terminated _ _ => true
    | _ => false
  | _ => false

/-- Whether an action is a heartbeat log line. -/
def isHeartbeatAct : Act → Bool
  | .log _ m =>
    match m with
    | .heartbeat _ _ => true
    | _ => false
  | _ => false

/-- The sleep durations occurring in a trace, in order. -/
def sleepsOf (acts : List Act) : List Int :=
  acts.filterMap (fun a => match a with | .sleep n => some n | _ => none)

/-- Concrete context used by the evaluation witnesses: `abspath` is the
identity (all concrete inputs below are already absolute) and the thread
id is `7`. -/
def ctx0 : Ctx := ⟨id, 7⟩

theorem toDigitsCore_length (b : Nat) :
    ∀ (fuel n : Nat) (ds : List Char), ds.length + 1 ≤ (Nat.toDigitsCore b (fuel + 1) n ds).length := by
  intro fuel
  induction fuel with
  | zero =>
    intro n ds
    simp only [Nat.toDigitsCore]
    split <;> simp [Nat.toDigitsCore]
  | succ fuel ih =>
    intro n ds
    simp only [Nat.toDigitsCore]
    split
    · simp
    · exact Nat.le_trans (by simp) (ih (n / b) (Nat.digitChar (n % b) :: ds))

theorem nat_repr_ne_empty (n : Nat) : Nat.repr n ≠ "" := by
  intro h
  have hlen : (0 : Nat) + 1 ≤ (Nat.toDigitsCore 10 (n + 1) n []).length :=
    toDigitsCore_length 10 n n []
  have hdata : (Nat.toDigitsCore 10 (n + 1) n []) = [] := by
    have := congrArg String.data h
    simpa [Nat.repr, Nat.toDigits, List.asString] using this
  rw [hdata] at hlen
  simp at hlen

theorem int_toString_ne_empty (i : Int) : toString i ≠ "" := by
  show Int.repr i ≠ ""
  cases i with
  | ofNat n => simpa [Int.repr] using nat_repr_ne_empty n
  | negSucc n =>
    intro h
    have := congrArg String.length h
    simp [Int.repr] at this
    exact nat_repr_ne_empty (n + 1) (by
      have hlen : (Nat.repr (n + 1)).length = 0 := by omega
      cases hrepr : Nat.repr (n + 1) with
      | mk data =>
        rw [hrepr] at hlen
        cases data with
        | nil => rfl
        | cons c cs => simp [String.length] at hlen)

theorem mentions_append_right (a s : String) : mentions (a ++ s) s :=
  ⟨a, "", by simp⟩

/-- C1: a move event whose source equals the tracked path under
absolute-path comparison makes `on_moved` emit exactly one warning
mentioning both the source and the destination path, rebind the tracked
`folder_path` to the destination and clear the observer's running flag
(`observer.stop()`, the session's stop signal); a non-matching move does
nothing, and no name-substring filter is consulted for moves (the
behaviour depends only on the path comparison). -/
theorem C1_on_moved_spec (ctx : Ctx) (st : SessionState) (ev : MoveEvent) :
    (ctx.abspath st.folder_path = ctx.abspath ev.src_path →
      on_moved ctx st ev = (⟨ev.dest_path, false⟩, [(.warning, .renamed ev.src_path ev.dest_path)]) ∧
      mentions (msgText (.renamed ev.src_path ev.dest_path)) ev.src_path ∧
      mentions (msgText (.renamed ev.src_path ev.dest_path)) ev.dest_path) ∧
    (ctx.abspath st.folder_path ≠ ctx.abspath ev.src_path →
      on_moved ctx st ev = (st, [])) := by
  constructor
  · intro h
    refine ⟨by simp [on_moved, h], ?_, ?_⟩
    · exact ⟨"Folder renamed from ", " to " ++ ev.dest_path, by simp [msgText, String.append_assoc]⟩
    · exact ⟨"Folder renamed from " ++ ev.src_path ++ " to ", "", by simp [msgText, String.append_assoc]⟩
  · intro h
    simp [on_moved, h]

/-- Evaluation of `C1_on_moved_spec` on a matching move `/w → /v`. -/
theorem C1_on_moved_witness :
    on_moved ctx0 ⟨"/w", true⟩ ⟨"/w", "/v"⟩ = (⟨"/v", false⟩, [(.warning, .renamed "/w" "/v")]) ∧
    mentions (msgText (.renamed "/w" "/v")) "/w" ∧
    mentions (msgText (.renamed "/w" "/v")) "/v" :=
  (C1_on_moved_spec ctx0 ⟨"/w", true⟩ ⟨"/w", "/v"⟩).1 rfl

/-- C6: a create or delete event logs exactly one informational entry
containing the event path when the base name of the path contains the
literal substring `"content-banned"`, and logs nothing otherwise. -/
theorem C6_filter_spec (src : String) :
    (substrIn "content-banned" (basename src) = true →
      on_created src = [(.info, .fileCreated src)] ∧
      mentions (msgText (.fileCreated src)) src ∧
      on_deleted src = [(.info, .fileDeleted src)] ∧
      mentions (msgText (.fileDeleted src)) src) ∧
    (substrIn "content-banned" (basename src) = false →
      on_created src = [] ∧ on_deleted src = []) := by
  constructor
  · intro h
    exact ⟨by simp [on_created, h], mentions_append_right "File created: " src,
      by simp [on_deleted, h], mentions_append_right "File deleted: " src⟩
  · intro h
    exact ⟨by simp [on_created, h], by simp [on_deleted, h]⟩

/-- Evaluation of `C6_filter_spec`: `content-banned-report.txt` is logged
by both handlers, `report.txt` by neither. -/
theorem C6_filter_witness :
    (on_created "/w/content-banned-report.txt" =
        [(.info, .fileCreated "/w/content-banned-report.txt")] ∧
      mentions (msgText (.fileCreated "/w/content-banned-report.txt")) "/w/content-banned-report.txt" ∧
      on_deleted "/w/content-banned-report.txt" =
        [(.info, .fileDeleted "/w/content-banned-report.txt")] ∧
      mentions (msgText (.fileDeleted "/w/content-banned-report.txt")) "/w/content-banned-report.txt") ∧
    (on_created "/w/report.txt" = [] ∧ on_deleted "/w/report.txt" = []) :=
  ⟨(C6_filter_spec "/w/content-banned-report.txt").1 (by decide),
   (C6_filter_spec "/w/report.txt").2 (by decide)⟩

/-- C2 counterexample: for a directory deleted between the existence
check and the metadata read (stat snapshot no longer knows the path), the
source's `get_folder_id` returns the plain *string* `""` — the
`FileNotFoundError` is swallowed inside the function — whereas the spec's
`resolveIdentity` contract demands a distinguished `NotFound` error
result on that input. -/
theorem C2_counterexample :
    get_folder_id [] "./watched_folder" = "" ∧
    statKnows [] "./watched_folder" = false ∧
    resolveIdentitySpec [] "./watched_folder" = Except.error NotFound.pathNotFound :=
  ⟨rfl, rfl, rfl⟩

/-- C2 (amended): identity resolution returns a non-empty string (the
decimal rendering of the integer-truncated creation timestamp) when the
directory still exists at metadata-read time, and returns the *empty
string* — the sentinel its caller tests for truthiness — rather than a
distinguished error result when the directory vanished before the read. -/
theorem C2_resolve_amended (fs : List (String × Int)) (p : String) :
    (statKnows fs p = true →
      ∃ c : Int, os_stat fs p = Except.ok c ∧
        get_folder_id fs p = toString c ∧ get_folder_id fs p ≠ "") ∧
    (statKnows fs p = false → get_folder_id fs p = "") := by
  constructor
  · intro h
    unfold statKnows at h
    cases hf : List.find? (fun e => e.1 == p) fs with
    | none => rw [hf] at h; simp at h
    | some e =>
      refine ⟨e.2, by simp [os_stat, hf], by simp [get_folder_id, os_stat, hf], ?_⟩
      simpa [get_folder_id, os_stat, hf] using int_toString_ne_empty e.2
  · intro h
    unfold statKnows at h
    cases hf : List.find? (fun e => e.1 == p) fs with
    | none => simp [get_folder_id, os_stat, hf]
    | some e => rw [hf] at h; simp at h

/-- Evaluation of `C2_resolve_amended` on a live directory of creation
time `100` and on a vanished directory. -/
theorem C2_resolve_amended_witness :
    (∃ c : Int, os_stat [("A", 100)] "A" = Except.ok c ∧
      get_folder_id [("A", 100)] "A" = toString c ∧ get_folder_id [("A", 100)] "A" ≠ "") ∧
    get_folder_id [] "./watched_folder" = "" :=
  ⟨(C2_resolve_amended [("A", 100)] "A").1 (by decide),
   (C2_resolve_amended [] "./watched_folder").2 (by decide)⟩

theorem waitRun_eq (checks : List Bool) :
    waitRun checks =
      (List.replicate (checks.takeWhile (fun b => !b)).length (Act.sleep 1),
       checks.any (fun b => b)) := by
  induction checks with
  | nil => rfl
  | cons b rest ih =>
    cases b with
    | true => simp [waitRun, List.takeWhile_cons]
    | false => simp [waitRun, List.takeWhile_cons, ih, List.replicate]

/-- C7: the existence wait performs no failing operation (it is a total
function of the poll results), returns exactly when some poll observes
the path — so it never returns while the path does not exist, and on an
all-false poll trace of any length it is still waiting — and sleeps a
fixed 1 second between consecutive polls, one sleep per failed poll
before the first success. -/
theorem C7_wait_spec (fp : String) (checks : List Bool) :
    wait_for_folder fp checks =
      (Act.log .info (.waiting fp) ::
        List.replicate (checks.takeWhile (fun b => !b)).length (Act.sleep 1),
       checks.any (fun b => b)) := by
  unfold wait_for_folder
  rw [waitRun_eq]

theorem loopRun_nil (ctx : Ctx) (fid : String) (st : SessionState) :
    loopRun ctx fid st [] = ⟨st, [], .running⟩ := rfl

theorem loopRun_cons (ctx : Ctx) (fid : String) (st : SessionState) (t : Tick) (rest : List Tick) :
    loopRun ctx fid st (t :: rest) =
      (let d := deliverEvents ctx st t.events
       if d.1.folder_path ∈ t.fs then
         let hb := Act.log .info (.heartbeat d.1.folder_path fid)
         match periodVal t.periodicity with
         | .error e => ⟨d.1, d.2 ++ [hb], .raised e⟩
         | .ok v =>
           if v < 0 then
             ⟨d.1, d.2 ++ [hb], .raised (.valueError "sleep length must be non-negative")⟩
           else
             let r := loopRun ctx fid d.1 rest
             ⟨r.st, d.2 ++ hb :: Act.sleep v :: r.acts, r.exit⟩
       else ⟨d.1, d.2, .normalExit⟩) := rfl

theorem deliverEvents_mem (ctx : Ctx) :
    ∀ (evs : List FEvent) (st : SessionState) (a : Act),
      a ∈ (deliverEvents ctx st evs).2 →
      (∃ p, a = .log .info (.fileCreated p)) ∨ (∃ p, a = .log .info (.fileDeleted p)) ∨
      (∃ s d, a = .log .warning (.renamed s d)) := by
  intro evs
  induction evs with
  | nil => intro st a ha; simp [deliverEvents] at ha
  | cons ev rest ih =>
    intro st a ha
    simp only [deliverEvents] at ha
    by_cases hrun : st.observerRunning
    · rw [if_pos hrun] at ha
      rcases List.mem_append.mp ha with hl | hr
      · rcases List.mem_map.mp hl with ⟨lm, hlm, rfl⟩
        cases ev with
        | created s =>
          simp only [dispatch, on_created] at hlm
          split at hlm <;> simp_all
        | deleted s =>
          simp only [dispatch, on_deleted] at hlm
          split at hlm <;> simp_all
        | moved s d =>
          simp only [dispatch, on_moved] at hlm
          split at hlm <;> simp_all
      · exact ih _ a hr
    · rw [if_neg hrun] at ha
      simp at ha

theorem loopRun_sleep_src (ctx : Ctx) (fid : String) :
    ∀ (ticks : List Tick) (st : SessionState) (v : Int),
      Act.sleep v ∈ (loopRun ctx fid st ticks).acts →
      ∃ t ∈ ticks, periodVal t.periodicity = Except.ok v := by
  intro ticks
  induction ticks with
  | nil => intro st v h; simp [loopRun_nil] at h
  | cons t rest ih =>
    intro st v h
    rw [loopRun_cons] at h
    simp only at h
    split at h
    · rcases hpv : periodVal t.periodicity with e | w
      · rw [hpv] at h
        simp only at h
        rcases List.mem_append.mp h with hl | hr
        · rcases deliverEvents_mem ctx t.events st _ hl with ⟨p, hp⟩ | ⟨p, hp⟩ | ⟨s, d, hp⟩ <;> simp at hp
        · simp at hr
      · rw [hpv] at h
        simp only at h
        split at h
        · rcases List.mem_append.mp h with hl | hr
          · rcases deliverEvents_mem ctx t.events st _ hl with ⟨p, hp⟩ | ⟨p, hp⟩ | ⟨s, d, hp⟩ <;> simp at hp
          · simp at hr
        · rcases List.mem_append.mp h with hl | hr
          · rcases deliverEvents_mem ctx t.events st _ hl with ⟨p, hp⟩ | ⟨p, hp⟩ | ⟨s, d, hp⟩ <;> simp at hp
          · rcases List.mem_cons.mp hr with hhb | hr'
            · simp at hhb
            · rcases List.mem_cons.mp hr' with hsl | hr''
              · exact ⟨t, List.mem_cons_self t rest, by rw [hpv]; injection hsl with h1; rw [h1]⟩
              · rcases ih _ v hr'' with ⟨t', ht', hpv'⟩
                exact ⟨t', List.mem_cons_of_mem t ht', hpv'⟩
    · rcases deliverEvents_mem ctx t.events st _ h with ⟨p, hp⟩ | ⟨p, hp⟩ | ⟨s, d, hp⟩ <;> simp at hp

theorem loopRun_no_term (ctx : Ctx) (fid : String) :
    ∀ (ticks : List Tick) (st : SessionState),
      (loopRun ctx fid st ticks).acts.countP isTermAct = 0 := by
  intro ticks
  induction ticks with
  | nil => intro st; simp [loopRun_nil]
  | cons t rest ih =>
    intro st
    have hdel : ((deliverEvents ctx st t.events).2).countP isTermAct = 0 := by
      rw [List.countP_eq_zero]
      intro a ha
      rcases deliverEvents_mem ctx t.events st a ha with ⟨p, hp⟩ | ⟨p, hp⟩ | ⟨s, d, hp⟩ <;>
        simp [hp, isTermAct]
    rw [loopRun_cons]
    simp only
    split
    · rcases hpv : periodVal t.periodicity with e | w
      · simp [List.countP_append, hdel, isTermAct]
      · simp only
        split
        · simp [List.countP_append, hdel, isTermAct]
        · simp [List.countP_append, List.countP_cons, hdel, isTermAct, ih]
    · exact hdel

/-- C3 counterexample: one single monitoring session, across which the
`PERIODICITY` environment variable changes from `"2"` to `"3"`, sleeps 2
seconds on its first heartbeat iteration and 3 seconds on its second —
the configuration is re-read by `os.getenv` inside the loop on every
iteration, so iterations of the same session do not all sleep the same
period, contrary to the claim. -/
theorem C3_counterexample :
    Act.sleep 2 ∈ (monitor_folder ctx0 "w" "100"
      [⟨[], ["w"], some "2"⟩, ⟨[], ["w"], some "3"⟩, ⟨[], [], none⟩]).acts ∧
    Act.sleep 3 ∈ (monitor_folder ctx0 "w" "100"
      [⟨[], ["w"], some "2"⟩, ⟨[], ["w"], some "3"⟩, ⟨[], [], none⟩]).acts ∧
    (2 : Int) ≠ 3 := by
  refine ⟨?_, ?_, by decide⟩ <;> decide

/-- C3 (amended): the heartbeat period is re-read from the `PERIODICITY`
configuration on every heartbeat iteration of a session, not once per
session: every sleep performed by a session run is the value obtained by
parsing the configuration as read during some iteration of that run (the
default 5 when unset), and a mid-session change takes effect on the next
iteration. -/
theorem C3_period_amended (ctx : Ctx) (fp fid : String) (ticks : List Tick) (v : Int)
    (h : Act.sleep v ∈ (monitor_folder ctx fp fid ticks).acts) :
    ∃ t ∈ ticks, periodVal t.periodicity = Except.ok v := by
  unfold monitor_folder at h
  rcases hr : loopRun ctx fid ⟨fp, true⟩ ticks with ⟨st', acts', ex'⟩
  rw [hr] at h
  have hacts : Act.sleep v ∈ acts' := by
    cases ex' with
    | running => simpa using h
    | normalExit =>
      simp only at h
      rcases List.mem_append.mp h with hl | hfin
      · exact hl
      · simp [finallyActs] at hfin
    | raised e =>
      simp only at h
      rcases List.mem_append.mp h with hl | hfin
      · exact hl
      · simp [finallyActs] at hfin
  have := loopRun_sleep_src ctx fid ticks ⟨fp, true⟩ v (by rw [hr]; exact hacts)
  exact this

/-- Evaluation of `C3_period_amended`: the 2-second sleep of the
counterexample run traces back to the iteration whose environment read
yielded `"2"`. -/
theorem C3_period_amended_witness :
    ∃ t ∈ [(⟨[], ["w"], some "2"⟩ : Tick), ⟨[], ["w"], some "3"⟩, ⟨[], [], none⟩],
      periodVal t.periodicity = Except.ok 2 :=
  C3_period_amended ctx0 "w" "100"
    [⟨[], ["w"], some "2"⟩, ⟨[], ["w"], some "3"⟩, ⟨[], [], none⟩] 2 (by decide)

/-- C10: when the watched path exists at the loop's first check and
`PERIODICITY` is set to a string `int()` cannot parse, the session run
logs exactly one heartbeat, the parse failure raised inside the loop body
is caught and logged at critical severity, the watcher is stopped, the
termination message is emitted — and no sleep happens at all, i.e. no
safe positive default is substituted for the unparsable value. -/
theorem C10_badperiod_spec (ctx : Ctx) (fp fid s : String) (fsS : List String)
    (rest : List Tick) (hbad : pyInt? s = none) (hex : fp ∈ fsS) :
    monitor_folder ctx fp fid (⟨[], fsS, some s⟩ :: rest) =
      ⟨⟨fp, false⟩,
        [Act.log .info (.heartbeat fp fid),
         Act.log .critical (.monitorError fp
           (.valueError ("invalid literal for int() with base 10: '" ++ s ++ "'"))),
         .obsStop, .obsJoin, Act.log .critical (.terminated fp fid)],
        .raised (.valueError ("invalid literal for int() with base 10: '" ++ s ++ "'"))⟩ ∧
    (monitor_folder ctx fp fid (⟨[], fsS, some s⟩ :: rest)).acts.countP isHeartbeatAct = 1 ∧
    sleepsOf (monitor_folder ctx fp fid (⟨[], fsS, some s⟩ :: rest)).acts = [] := by
  have hloop : loopRun ctx fid ⟨fp, true⟩ (⟨[], fsS, some s⟩ :: rest) =
      ⟨⟨fp, true⟩, [Act.log .info (.heartbeat fp fid)],
        .raised (.valueError ("invalid literal for int() with base 10: '" ++ s ++ "'"))⟩ := by
    rw [loopRun_cons]
    simp [deliverEvents, hex, periodVal, hbad]
  have hmon : monitor_folder ctx fp fid (⟨[], fsS, some s⟩ :: rest) =
      ⟨⟨fp, false⟩,
        [Act.log .info (.heartbeat fp fid),
         Act.log .critical (.monitorError fp
           (.valueError ("invalid literal for int() with base 10: '" ++ s ++ "'"))),
         .obsStop, .obsJoin, Act.log .critical (.terminated fp fid)],
        .raised (.valueError ("invalid literal for int() with base 10: '" ++ s ++ "'"))⟩ := by
    unfold monitor_folder
    rw [hloop]
    simp [finallyActs]
  refine ⟨hmon, ?_, ?_⟩ <;>
    simp [hmon, isHeartbeatAct, sleepsOf, List.countP_cons, List.countP_nil, List.filterMap]

/-- Evaluation of `C10_badperiod_spec` with `PERIODICITY="abc"` on an
existing folder `w`. -/
theorem C10_badperiod_witness :
    monitor_folder ctx0 "w" "100" [⟨[], ["w"], some "abc"⟩] =
      ⟨⟨"w", false⟩,
        [Act.log .info (.heartbeat "w" "100"),
         Act.log .critical (.monitorError "w"
           (.valueError ("invalid literal for int() with base 10: '" ++ "abc" ++ "'"))),
         .obsStop, .obsJoin, Act.log .critical (.terminated "w" "100")],
        .raised (.valueError ("invalid literal for int() with base 10: '" ++ "abc" ++ "'"))⟩ ∧
    (monitor_folder ctx0 "w" "100" [⟨[], ["w"], some "abc"⟩]).acts.countP isHeartbeatAct = 1 ∧
    sleepsOf (monitor_folder ctx0 "w" "100" [⟨[], ["w"], some "abc"⟩]).acts = [] :=
  C10_badperiod_spec ctx0 "w" "100" "abc" ["w"] [] (by decide) (by decide)

/-- C4: whenever the heartbeat loop of a session run completes — by the
existence check failing (which is also how a rename-signalled stop is
eventually observed) or by an exception raised in the loop body — the
observer is stopped and joined before control returns, the last action is
a critical-severity termination log whose text mentions the identity the
session was started with, and a raised exception is absorbed: it is
logged at critical severity inside the session instead of propagating
(the run still ends in the same stop/join/terminate sequence). -/
theorem C4_cleanup_spec (ctx : Ctx) (fp fid : String) (ticks : List Tick)
    (st : SessionState) (acts : List Act) (ex : LoopExit)
    (heq : monitor_folder ctx fp fid ticks = ⟨st, acts, ex⟩) (hex : ex ≠ .running) :
    (∃ pre, acts = pre ++ [.obsStop, .obsJoin, .log .critical (.terminated st.folder_path fid)]) ∧
    mentions (msgText (.terminated st.folder_path fid)) fid ∧
    st.observerRunning = false ∧
    (∀ e, ex = .raised e → Act.log .critical (.monitorError st.folder_path e) ∈ acts) := by
  unfold monitor_folder at heq
  rcases hr : loopRun ctx fid ⟨fp, true⟩ ticks with ⟨st', acts', ex'⟩
  rw [hr] at heq
  have hmen : ∀ q : String, mentions (msgText (.terminated q fid)) fid :=
    fun q => ⟨"Folder " ++ q ++ " (ID: ", ") monitoring terminated.",
      by simp [msgText, String.append_assoc]⟩
  cases ex' with
  | running =>
    simp only at heq
    cases heq
    exact absurd rfl hex
  | normalExit =>
    simp only at heq
    cases heq
    refine ⟨⟨acts', by simp [finallyActs]⟩, hmen _, rfl, ?_⟩
    intro e he
    exact absurd he (by simp)
  | raised e0 =>
    simp only at heq
    cases heq
    refine ⟨⟨acts' ++ [Act.log .critical (.monitorError st'.folder_path e0)],
      by simp [finallyActs]⟩, hmen _, rfl, ?_⟩
    intro e he
    have : e = e0 := by
      cases he
      rfl
    subst this
    simp

/-- Evaluation of `C4_cleanup_spec` on a session whose folder is deleted
at the first check: the run is exactly stop, join, terminate. -/
theorem C4_cleanup_witness :
    (∃ pre, [Act.obsStop, Act.obsJoin, Act.log .critical (.terminated "w" "100")] =
      pre ++ [Act.obsStop, Act.obsJoin,
        Act.log .critical (.terminated (SessionState.mk "w" false).folder_path "100")]) ∧
    mentions (msgText (.terminated (SessionState.mk "w" false).folder_path "100")) "100" ∧
    (SessionState.mk "w" false).observerRunning = false ∧
    (∀ e, LoopExit.normalExit = .raised e →
      Act.log .critical (.monitorError (SessionState.mk "w" false).folder_path e) ∈
        [Act.obsStop, Act.obsJoin, Act.log .critical (.terminated "w" "100")]) :=
  C4_cleanup_spec ctx0 "w" "100" [⟨[], [], none⟩] ⟨"w", false⟩
    [Act.obsStop, Act.obsJoin, Act.log .critical (.terminated "w" "100")]
    .normalExit (by decide) (by decide)

/-- C9: stopping the Event Watcher is idempotent — a second `stop` on an
already-stopped handle is the same no-op, total state transition (the
spec-modelled external watchdog handle has no error channel) — and a
completed session run emits the monitoring-terminated message exactly
once, even on a rename trace where the move handler already stopped the
observer before the session's `finally` stopped it again. -/
theorem C9_stop_idempotent :
    (∀ o : ObserverH, observerStop (observerStop o) = observerStop o ∧
      (observerStop o).running = false) ∧
    (∀ (ctx : Ctx) (fp fid : String) (ticks : List Tick),
      (monitor_folder ctx fp fid ticks).exit ≠ .running →
      (monitor_folder ctx fp fid ticks).acts.countP isTermAct = 1) := by
  constructor
  · intro o
    exact ⟨rfl, rfl⟩
  · intro ctx fp fid ticks hex
    unfold monitor_folder at hex ⊢
    rcases hr : loopRun ctx fid ⟨fp, true⟩ ticks with ⟨st', acts', ex'⟩
    have hacts : acts'.countP isTermAct = 0 := by
      have := loopRun_no_term ctx fid ticks ⟨fp, true⟩
      rw [hr] at this
      exact this
    cases ex' with
    | running =>
      rw [hr] at hex
      simp at hex
    | normalExit =>
      simp [finallyActs, List.countP_append, List.countP_cons, hacts, isTermAct]
    | raised e =>
      simp [finallyActs, List.countP_append, List.countP_cons, hacts, isTermAct]

/-- Evaluation of `C9_stop_idempotent`: double stop on a live handle, and
the single termination log of the rename trace `A → B` (where the
handler's stop precedes the cleanup's stop). -/
theorem C9_stop_witness :
    (observerStop (observerStop ⟨true⟩) = observerStop ⟨true⟩ ∧
      (observerStop ⟨true⟩).running = false) ∧
    (monitor_folder ctx0 "A" "100"
      [⟨[.moved "A" "B"], ["B"], none⟩, ⟨[], [], none⟩]).acts.countP isTermAct = 1 :=
  ⟨C9_stop_idempotent.1 ⟨true⟩,
   C9_stop_idempotent.2 ctx0 "A" "100"
     [⟨[.moved "A" "B"], ["B"], none⟩, ⟨[], [], none⟩] (by decide)⟩

/-- C5: every supervisor-loop iteration waits for existence of, and
resolves identity on, the configured path passed to `main`'s loop — the
session's rename handling rebinds only the session-local `folder_path`
(reported here as `sessionFinal`) and never flows back, so after a
session whose tracked path ended elsewhere the next iteration still polls
the original configured path. -/
theorem C5_supervisor_frame (ctx : Ctx) (cfg : String) (ticks : List SupTick) :
    ∀ rec ∈ (mainRun ctx cfg ticks).2,
      rec.waited = cfg ∧ (rec.resolved = none ∨ rec.resolved = some cfg) := by
  induction ticks with
  | nil =>
    intro rec hrec
    simp [mainRun] at hrec
  | cons ti rest ih =>
    intro rec hrec
    rw [mainRun] at hrec
    simp only at hrec
    split at hrec
    · split at hrec
      · rcases List.mem_cons.mp hrec with h | h
        · subst h
          exact ⟨rfl, Or.inr rfl⟩
        · exact ih rec h
      · split at hrec
        · rcases List.mem_singleton.mp hrec with h
          subst h
          exact ⟨rfl, Or.inr rfl⟩
        · rcases List.mem_cons.mp hrec with h | h
          · subst h
            exact ⟨rfl, Or.inr rfl⟩
          · exact ih rec h
    · rcases List.mem_singleton.mp hrec with h
      subst h
      exact ⟨rfl, Or.inl rfl⟩

/-- Evaluation of `C5_supervisor_frame`: a run whose first session ends
with its tracked path renamed to `B` (first record's `sessionFinal`),
after which the second iteration still waits on and resolves `A`. -/
theorem C5_supervisor_witness :
    (mainRun ctx0 "A"
        [⟨[true], [("A", 100)], [⟨[.moved "A" "B"], ["B"], none⟩, ⟨[], [], none⟩]⟩,
         ⟨[true], [("A", 100)], [⟨[], [], none⟩]⟩]).2 =
      [⟨"A", some "A", some "B"⟩, ⟨"A", some "A", some "A"⟩] ∧
    (⟨"A", some "A", some "B"⟩ : MainRec).waited = "A" ∧
    ((⟨"A", some "A", some "B"⟩ : MainRec).resolved = none ∨
      (⟨"A", some "A", some "B"⟩ : MainRec).resolved = some "A") :=
  ⟨by decide,
   C5_supervisor_frame ctx0 "A"
     [⟨[true], [("A", 100)], [⟨[.moved "A" "B"], ["B"], none⟩, ⟨[], [], none⟩]⟩,
      ⟨[true], [("A", 100)], [⟨[], [], none⟩]⟩]
     ⟨"A", some "A", some "B"⟩ (by decide)⟩

/-- C8: in a supervisor iteration whose identity resolution comes back
falsy, the iteration consists of the existence wait followed by exactly
one critical failure log and nothing else — no session start log, no
observer activity, no sleep — and the loop recurses immediately into the
next iteration's existence wait; the wait segment itself holds only the
informational waiting line and 1-second polls. -/
theorem C8_resolvefail_spec (ctx : Ctx) (cfg : String) (ti : SupTick) (rest : List SupTick)
    (hw : (wait_for_folder cfg ti.waitChecks).2 = true)
    (hid : get_folder_id ti.statFS cfg = "") :
    mainRun ctx cfg (ti :: rest) =
      ((wait_for_folder cfg ti.waitChecks).1 ++
        Act.log .critical (.resolveFailed cfg) :: (mainRun ctx cfg rest).1,
       ⟨cfg, some cfg, none⟩ :: (mainRun ctx cfg rest).2) ∧
    (∀ a ∈ (wait_for_folder cfg ti.waitChecks).1,
      a = Act.log .info (.waiting cfg) ∨ a = Act.sleep 1) := by
  constructor
  · rw [mainRun]
    simp only [hw, hid]
    simp
  · intro a ha
    simp only [wait_for_folder, waitRun_eq] at ha
    rcases List.mem_cons.mp ha with h | h
    · exact Or.inl h
    · exact Or.inr (List.eq_of_mem_replicate h)

/-- Evaluation of `C8_resolvefail_spec`: the folder exists for the wait's
poll but has vanished by the time `os.stat` runs, so resolution yields
the empty string and the iteration is wait, one critical log, restart. -/
theorem C8_resolvefail_witness :
    mainRun ctx0 "A" [⟨[true], [], []⟩] =
      ((wait_for_folder "A" [true]).1 ++
        Act.log .critical (.resolveFailed "A") :: (mainRun ctx0 "A" []).1,
       ⟨"A", some "A", none⟩ :: (mainRun ctx0 "A" []).2) ∧
    (∀ a ∈ (wait_for_folder "A" [true]).1,
      a = Act.log .info (.waiting "A") ∨ a = Act.sleep 1) :=
  C8_resolvefail_spec ctx0 "A" ⟨[true], [], []⟩ [] (by decide) (by decide)
